import Mathlib

/-! Shallow embedding of the `MoveTo` stage from `src/core/src/stages/move_to.cpp`
(moveit_task_constructor).  Real-valued quantities (joint positions, transform
entries, timeouts) are modelled over `ℚ`; rigid transforms (`Eigen::Isometry3d`)
are modelled as a 3x3 matrix together with a translation vector.  External
collaborators (planner, `RobotTrajectory`, the `SolutionRecord` sink, the
planning-scene transform tree) are modelled from their contracts in the spec
where their code is not part of this repository; each such definition carries a
doc comment saying so.
-/

namespace MoveToStage

/-- A 3-vector of rationals (models `Eigen::Vector3d`). -/
structure V3 where
  x : ℚ
  y : ℚ
  z : ℚ
deriving DecidableEq

def V3.add (a b : V3) : V3 :=
  ⟨a.x + b.x, a.y + b.y, a.z + b.z⟩

def V3.neg (a : V3) : V3 :=
  ⟨-a.x, -a.y, -a.z⟩

/-- A 3x3 matrix of rationals (models the rotation part of `Eigen::Isometry3d`). -/
structure M3 where
  xx : ℚ
  xy : ℚ
  xz : ℚ
  yx : ℚ
  yy : ℚ
  yz : ℚ
  zx : ℚ
  zy : ℚ
  zz : ℚ
deriving DecidableEq

def M3.mul (a b : M3) : M3 :=
  ⟨a.xx * b.xx + a.xy * b.yx + a.xz * b.zx,
   a.xx * b.xy + a.xy * b.yy + a.xz * b.zy,
   a.xx * b.xz + a.xy * b.yz + a.xz * b.zz,
   a.yx * b.xx + a.yy * b.yx + a.yz * b.zx,
   a.yx * b.xy + a.yy * b.yy + a.yz * b.zy,
   a.yx * b.xz + a.yy * b.yz + a.yz * b.zz,
   a.zx * b.xx + a.zy * b.yx + a.zz * b.zx,
   a.zx * b.xy + a.zy * b.yy + a.zz * b.zy,
   a.zx * b.xz + a.zy * b.yz + a.zz * b.zz⟩

def M3.transpose (a : M3) : M3 :=
  ⟨a.xx, a.yx, a.zx, a.xy, a.yy, a.zy, a.xz, a.yz, a.zz⟩

def M3.apply (a : M3) (v : V3) : V3 :=
  ⟨a.xx * v.x + a.xy * v.y + a.xz * v.z,
   a.yx * v.x + a.yy * v.y + a.yz * v.z,
   a.zx * v.x + a.zy * v.y + a.zz * v.z⟩

def M3.one : M3 := ⟨1, 0, 0, 0, 1, 0, 0, 0, 1⟩

/-- A rigid transform: rotation part and translation part
(models `Eigen::Isometry3d`). -/
structure Iso where
  rot : M3
  tr : V3
deriving DecidableEq

/-- Composition `a * b` of `Eigen::Isometry3d` values. -/
def Iso.comp (a b : Iso) : Iso :=
  ⟨a.rot.mul b.rot, (a.rot.apply b.tr).add a.tr⟩

/-- `Eigen::Isometry3d::inverse()`: for an isometry the rotation inverts by
transposition and the translation by `-Rᵀ t`. -/
def Iso.inv (a : Iso) : Iso :=
  ⟨a.rot.transpose, (a.rot.transpose.apply a.tr).neg⟩

def Iso.id : Iso := ⟨M3.one, ⟨0, 0, 0⟩⟩

/-- Affine application of an isometry to a point (`isometry * vector` in Eigen). -/
def Iso.applyPoint (a : Iso) (p : V3) : V3 :=
  (a.rot.apply p).add a.tr

abbrev JointName := String

/-- A robot configuration: association list from joint variable names to values
(models the variable positions of `moveit::core::RobotState`). -/
abbrev RobotState := List (JointName × ℚ)

/-- `RobotState::setVariablePosition`: replace the first binding of the variable,
or append a fresh one. -/
def setVar : RobotState → JointName → ℚ → RobotState
  | [], n, v => [(n, v)]
  | p :: rest, n, v => if p.1 == n then (n, v) :: rest else p :: setVar rest n v

/-- A joint model group (`moveit::core::JointModelGroup`, read-only collaborator):
group name, joint names (`getJointModelNames`), end-effector tips
(`getEndEffectorTips`) and named default configurations (used by
`RobotState::setToDefaultValues`). -/
structure JointGroup where
  name : String
  joints : List JointName
  tips : List String
  defaults : List (String × List (JointName × ℚ))
deriving DecidableEq

/-- The robot model collaborator: its joint groups
(`RobotModel::getJointModelGroup`) and, for each frame, its rigidly-connected
parent link (`utils::getRigidlyConnectedParentLinkModel`). -/
structure RobotModel where
  groups : List JointGroup
  rigidParent : List (String × String)
deriving DecidableEq

def RobotModel.findGroup (m : RobotModel) (g : String) : Option JointGroup :=
  m.groups.find? (fun jg => jg.name == g)

/-- Modelled from the spec: `utils::getRigidlyConnectedParentLinkModel` (outside
this repository's source) returns the nearest ancestor link rigidly connected to
the given frame; a frame that is itself a link is its own parent. -/
def RobotModel.parentLinkOf (m : RobotModel) (frame : String) : String :=
  (m.rigidParent.lookup frame).getD frame

/-- A planning scene (snapshot view): known frame transforms
(`getFrameTransform` / `knowsFrameTransform`), planning frame name, and the
current robot configuration. -/
structure Scene where
  frames : List (String × Iso)
  planningFrame : String
  cur : RobotState
deriving DecidableEq

def Scene.knowsFrameTransform (s : Scene) (f : String) : Bool :=
  (s.frames.lookup f).isSome

def Scene.frameTransform (s : Scene) (f : String) : Iso :=
  (s.frames.lookup f).getD Iso.id

/-- Modelled from the spec: `PlanningScene::diff()` creates a child view that
starts with the parent's content and may override the current configuration
without mutating the parent.  The parent is threaded separately and only read. -/
def Scene.diff (s : Scene) : Scene := s

def Scene.setCurrentState (s : Scene) (st : RobotState) : Scene :=
  { s with cur := st }

/-- `geometry_msgs::PoseStamped`. -/
structure PoseStamped where
  frame_id : String
  pose : Iso
deriving DecidableEq

/-- `geometry_msgs::PointStamped`. -/
structure PointStamped where
  frame_id : String
  point : V3
deriving DecidableEq

/-- `moveit_msgs::RobotState`: diff flag, single-dof joint names and positions,
multi-dof joint names (multi-dof values are not needed by any claim). -/
structure RobotStateMsg where
  is_diff : Bool
  jointNames : List JointName
  positions : List ℚ
  multiDofJointNames : List JointName
deriving DecidableEq

/-- The `boost::any` goal property as a tagged value.  `otherGoal` stands for
any stored type other than the five recognised ones; `emptyGoal` is an empty
`boost::any`. -/
inductive Goal where
  | namedPose (name : String)
  | robotStateGoal (msg : RobotStateMsg)
  | jointMapGoal (m : List (JointName × ℚ))
  | poseGoal (p : PoseStamped)
  | pointGoal (p : PointStamped)
  | otherGoal (typeName : String)
  | emptyGoal
deriving DecidableEq

/-- `boost::any::type().name()` of the stored goal (readable stand-ins for the
mangled names the source streams into the error message). -/
def goalTypeName : Goal → String
  | .namedPose _ => "std::string"
  | .robotStateGoal _ => "moveit_msgs::RobotState"
  | .jointMapGoal _ => "std::map<std::string, double>"
  | .poseGoal _ => "geometry_msgs::PoseStamped"
  | .pointGoal _ => "geometry_msgs::PointStamped"
  | .otherGoal t => t
  | .emptyGoal => "void"

/-- The error message thrown when a goal joint is not part of the group
(`move_to.cpp` lines 120, 123, 135-136). -/
def jointNotInGroupMsg (j : JointName) (g : String) : String :=
  "Joint '" ++ j ++ "' is not part of group '" ++ g ++ "'"

/-- First joint of the list that is not part of the group, if any (the two
validation loops over `msg.joint_state.name` / `msg.multi_dof_joint_state`
throw at the first offender). -/
def checkJoints (jmg : JointGroup) : List JointName → Option JointName
  | [] => none
  | n :: rest => if jmg.joints.contains n then checkJoints jmg rest else some n

/-- Modelled from the spec: `robotStateMsgToRobotState` writes the message's
joint values into the working configuration. -/
def writeJointValues (st : RobotState) (names : List JointName) (vals : List ℚ) : RobotState :=
  (List.zip names vals).foldl (fun s p => setVar s p.1 p.2) st

/-- The joint-value-map branch of `MoveTo::getJointStateGoal` (lines 130-142):
for each entry, in order, check membership in the group — throwing at the first
offender, with previously written values kept, since the state is mutated in
place — and otherwise write the value. -/
def applyJointMap (jmg : JointGroup) : List (JointName × ℚ) → RobotState → Except String Bool × RobotState
  | [], st => (Except.ok true, st)
  | (k, v) :: rest, st =>
      if jmg.joints.contains k then applyJointMap jmg rest (setVar st k v)
      else (Except.error (jointNotInGroupMsg k jmg.name), st)

/-- `MoveTo::getJointStateGoal` (lines 98-145): try the three joint-space
interpretations in priority order — named pose, `moveit_msgs::RobotState` diff,
joint-value map — stopping at the first structural match; a structural match
that is semantically invalid throws (`Except.error`), it does not fall through;
`ok false` means no structural match.  The returned state is the working
configuration after any in-place mutation.  `RobotState::setToDefaultValues` is
modelled from the spec: look the name up in the group's default configurations
and write the stored values. -/
def getJointStateGoal (goal : Goal) (jmg : JointGroup) (st : RobotState) :
    Except String Bool × RobotState :=
  match goal with
  | .namedPose n =>
      match jmg.defaults.lookup n with
      | none => (Except.error ("Unknown joint pose: " ++ n), st)
      | some cfg => (Except.ok true, cfg.foldl (fun s p => setVar s p.1 p.2) st)
  | .robotStateGoal msg =>
      if msg.is_diff = false then (Except.error "Expecting a diff state", st)
      else
        match checkJoints jmg msg.jointNames with
        | some j => (Except.error (jointNotInGroupMsg j jmg.name), st)
        | none =>
            match checkJoints jmg msg.multiDofJointNames with
            | some j => (Except.error (jointNotInGroupMsg j jmg.name), st)
            | none => (Except.ok true, writeJointValues st msg.jointNames msg.positions)
  | .jointMapGoal m => applyJointMap jmg m st
  | _ => (Except.ok false, st)

/-- `MoveTo::getPoseGoal` (lines 147-158): a pose goal is re-expressed in the
world frame by composing with the scene transform of its frame id; any other
goal type is a structural mismatch (`none`). -/
def getPoseGoal (goal : Goal) (scene : Scene) : Option Iso :=
  match goal with
  | .poseGoal msg => some ((scene.frameTransform msg.frame_id).comp msg.pose)
  | _ => none

/-- `MoveTo::getPointGoal` (lines 160-176): a point goal keeps the current ik
frame pose and replaces only its translation by the goal point transformed into
the world frame; any other goal type is a structural mismatch (`none`). -/
def getPointGoal (goal : Goal) (ik_pose : Iso) (scene : Scene) : Option Iso :=
  match goal with
  | .pointGoal msg =>
      some { rot := ik_pose.rot, tr := (scene.frameTransform msg.frame_id).applyPoint msg.point }
  | _ => none

/-- The Cartesian target resolution step of `MoveTo::compute` (line 250):
`getPoseGoal` is tried first, then `getPointGoal`. -/
def cartesianTarget (goal : Goal) (ik_pose_world : Iso) (scene : Scene) : Option Iso :=
  match getPoseGoal goal scene with
  | some t => some t
  | none => getPointGoal goal ik_pose_world scene

/-- The `get_tip` closure of `MoveTo::compute` (lines 213-222): succeeds iff the
group exposes exactly one end-effector tip. -/
def getTip (jmg : JointGroup) : Option String :=
  match jmg.tips with
  | [t] => some t
  | _ => none

/-- Resolution of the `ik_frame` property in `MoveTo::compute` (lines 224-241):
if the property is undefined, the unique group tip is required (failure message
"missing ik_frame") and the local offset is the identity pose; if it is set with
an empty frame id, the unique tip fills the frame id; a set frame id must be a
known scene transform. -/
def resolveIkFrameMsg (ikf : Option PoseStamped) (jmg : JointGroup) (scene : Scene) :
    Except String PoseStamped :=
  match ikf with
  | none =>
      match getTip jmg with
      | none => Except.error "missing ik_frame"
      | some tip => Except.ok ⟨tip, Iso.id⟩
  | some msg0 =>
      let step : Except String PoseStamped :=
        if msg0.frame_id = "" then
          match getTip jmg with
          | none => Except.error "frame_id of ik_frame is empty and no unique group tip was found"
          | some tip => Except.ok { msg0 with frame_id := tip }
        else Except.ok msg0
      match step with
      | Except.error e => Except.error e
      | Except.ok msg1 =>
          if scene.knowsFrameTransform msg1.frame_id then Except.ok msg1
          else Except.error ("ik_frame specified in unknown frame '" ++ msg1.frame_id ++ "'")

/-- The world pose of the resolved ik frame (lines 243-248):
`scene.frameTransform(frame_id) * local offset`. -/
def ikPoseWorld (scene : Scene) (msg : PoseStamped) : Iso :=
  (scene.frameTransform msg.frame_id).comp msg.pose

/-- Path constraints are passed through unvalidated; their content is opaque. -/
abbrev Constraints := List String

/-- The two planner call shapes of `solvers::PlannerInterface::plan` used at
lines 204 and 275. -/
inductive PlanRequest where
  | jointGoalReq (startScene endScene : Scene) (group : String) (timeout : ℚ) (pc : Constraints)
  | cartesianReq (startScene : Scene) (link : String) (target : Iso) (group : String)
      (timeout : ℚ) (pc : Constraints)
deriving DecidableEq

def PlanRequest.isCartesianShape : PlanRequest → Bool
  | .cartesianReq _ _ _ _ _ _ => true
  | _ => false

/-- A trajectory: waypoints with their relative times (waypoint configuration,
relative time).  The diagnostic fallback adds waypoints at relative times 0
and 1 (`addSuffixWayPoint`). -/
abbrev Trajectory := List (RobotState × ℚ)

/-- Modelled from the spec: `RobotTrajectory::reverse` produces the waypoint
sequence in reverse order, the relative timing between waypoints preserved in
reversed order. -/
def reverseTrajectory (t : Trajectory) : Trajectory := t.reverse

/-- `RobotTrajectory::getLastWayPoint` (undefined on an empty trajectory in the
source; the default is never reached on the paths the claims cover). -/
def lastState (t : Trajectory) : RobotState :=
  ((t.getLast?).map Prod.fst).getD []

/-- The stage's per-invocation output record (`SubTrajectory`): stored
trajectory, failure flag, failure message ("comment") and diagnostic markers
(marker name, planning frame, pose). -/
structure SubTrajectory where
  trajectory : Option Trajectory
  failed : Bool
  comment : String
  markers : List (String × String × Iso)
deriving DecidableEq

def SubTrajectory.fresh : SubTrajectory := ⟨none, false, "", []⟩

/-- Modelled from the spec: the SolutionRecord sink's `markAsFailure(message)`
marks the record failed and attaches the message. -/
def markAsFailureMsg (s : SubTrajectory) (msg : String) : SubTrajectory :=
  { s with failed := true, comment := msg }

/-- Modelled from the spec: the zero-argument `markAsFailure()` call at line 291
provides no message, so the record is marked failed with its message left
unchanged. -/
def markAsFailureNoMsg (s : SubTrajectory) : SubTrajectory :=
  { s with failed := true }

def setTrajectory (s : SubTrajectory) (t : Trajectory) : SubTrajectory :=
  { s with trajectory := some t }

/-- The `add_frame` closure (lines 255-260): append a diagnostic frame marker in
the planning frame. -/
def addFrameMarker (s : SubTrajectory) (scene : Scene) (pose : Iso) (nm : String) : SubTrajectory :=
  { s with markers := s.markers ++ [(nm, scene.planningFrame, pose)] }

/-- Everything `MoveTo::compute` does before the planner call: goal
interpretation and (on the Cartesian path) frame and target resolution.
`aborted` is an early `return false` after `markAsFailure(message)`;
`thrown` is an `InitStageException` propagating out of `getJointStateGoal`;
`planned` carries the scene diff, the solution record built so far (markers on
the Cartesian path) and the planner request. -/
inductive ResolveOutcome where
  | aborted (scene : Scene) (sol : SubTrajectory)
  | thrown (scene : Scene) (sol : SubTrajectory) (msg : String)
  | planned (scene : Scene) (sol : SubTrajectory) (req : PlanRequest)
deriving DecidableEq

/-- The pre-planner part of `MoveTo::compute` (lines 178-275), translated
branch by branch: create the scene diff; look up the group (failure:
"invalid joint model group: ..."); reject an empty goal ("undefined goal");
try the joint-space interpretations (an interpretation error propagates as an
exception, mutations to the working configuration are kept in the diff scene);
otherwise resolve the ik frame, resolve the Cartesian target (failure:
"invalid goal type: ..."), append the two diagnostic frame markers, and re-base
the target onto the rigidly-connected parent link:
`target * ik_pose_world.inverse() * scene.frameTransform(parent)` (line 272).
The source also reads the ik offset into a local `ik_pose` that it never uses
(lines 270-271). -/
def resolve (model : RobotModel) (group : String) (goal : Goal) (ikf : Option PoseStamped)
    (timeout : ℚ) (pc : Constraints) (parentScene : Scene) : ResolveOutcome :=
  let scene0 := parentScene.diff
  match model.findGroup group with
  | none => .aborted scene0 (markAsFailureMsg SubTrajectory.fresh ("invalid joint model group: " ++ group))
  | some jmg =>
    if goal = Goal.emptyGoal then
      .aborted scene0 (markAsFailureMsg SubTrajectory.fresh "undefined goal")
    else
      let jr := getJointStateGoal goal jmg scene0.cur
      let scene := scene0.setCurrentState jr.2
      match jr.1 with
      | Except.error e => .thrown scene SubTrajectory.fresh e
      | Except.ok true =>
          .planned scene SubTrajectory.fresh (.jointGoalReq parentScene scene group timeout pc)
      | Except.ok false =>
          match resolveIkFrameMsg ikf jmg scene with
          | Except.error e => .aborted scene (markAsFailureMsg SubTrajectory.fresh e)
          | Except.ok msg =>
              let ikw := ikPoseWorld scene msg
              match cartesianTarget goal ikw scene with
              | none =>
                  .aborted scene
                    (markAsFailureMsg SubTrajectory.fresh ("invalid goal type: " ++ goalTypeName goal))
              | some target0 =>
                  let sol1 := addFrameMarker
                    (addFrameMarker SubTrajectory.fresh scene target0 "target frame") scene ikw "ik frame"
                  let parentLink := model.parentLinkOf msg.frame_id
                  let target := (target0.comp ikw.inv).comp (scene.frameTransform parentLink)
                  .planned scene sol1 (.cartesianReq parentScene parentLink target group timeout pc)

/-- The result of one `compute` invocation: the C++ return value, the scene
diff (output parameter `scene`), the parent scene threaded through (read-only
in the source), the solution record, the planner requests issued, and a
propagating exception if any. -/
structure ComputeResult where
  ret : Bool
  scene : Scene
  parent : Scene
  solution : SubTrajectory
  requests : List PlanRequest
  exn : Option String
deriving DecidableEq

/-- The result-storing tail of `MoveTo::compute` (lines 278-295): when the
planner produced no trajectory and the store-failures policy is on, synthesize
the two-waypoint diagnostic trajectory (parent scene's current configuration at
relative time 0, diff scene's current configuration at relative time 1); if a
trajectory exists, set the diff scene's configuration to its last waypoint,
reverse it in the backward direction, store it, and mark the record failed
(without a message) when the planner did not succeed. -/
def storeResult (parentScene : Scene) (storeFailures : Bool) (dir : Bool)
    (scene : Scene) (sol : SubTrajectory) (req : PlanRequest)
    (success : Bool) (traj : Option Trajectory) : ComputeResult :=
  let traj2 : Option Trajectory :=
    match traj with
    | none => if storeFailures then some [(parentScene.cur, 0), (scene.cur, 1)] else none
    | some t => some t
  match traj2 with
  | some t =>
      let scene' := scene.setCurrentState (lastState t)
      let stored := if dir then reverseTrajectory t else t
      let sol1 := setTrajectory sol stored
      let sol2 := if success then sol1 else markAsFailureNoMsg sol1
      ⟨true, scene', parentScene, sol2, [req], none⟩
  | none => ⟨false, scene, parentScene, sol, [req], none⟩

/-- `MoveTo::compute` (lines 178-296).  `dir` is `true` for
`Interface::BACKWARD`.  The planner collaborator is passed explicitly; it
returns the success flag and the (possibly absent) trajectory of
`PlannerInterface::plan`. -/
def compute (model : RobotModel) (group : String) (goal : Goal) (ikf : Option PoseStamped)
    (timeout : ℚ) (pc : Constraints) (storeFailures : Bool) (dir : Bool)
    (planner : PlanRequest → Bool × Option Trajectory) (parentScene : Scene) : ComputeResult :=
  match resolve model group goal ikf timeout pc parentScene with
  | .aborted scene sol => ⟨false, scene, parentScene, sol, [], none⟩
  | .thrown scene sol e => ⟨false, scene, parentScene, sol, [], some e⟩
  | .planned scene sol req =>
      let r := planner req
      storeResult parentScene storeFailures dir scene sol req r.1 r.2

/-- `MoveTo::setGoal(const std::map<std::string, double>&)` (lines 80-91):
store a `moveit_msgs::RobotState` with `is_diff = true` whose joint names and
positions are exactly the map's entries, in iteration order. -/
def setGoal (joints : List (JointName × ℚ)) : Goal :=
  Goal.robotStateGoal ⟨true, joints.map Prod.fst, joints.map Prod.snd, []⟩

/-- `MoveTo::init` (lines 93-96): base-class init (modelled as a no-op) and
planner init; no group validation of any kind happens here. -/
def init (model : RobotModel) (plannerInit : RobotModel → Except String Unit) :
    Except String Unit :=
  plannerInit model

/-- Decidable equality for `Except`, needed to evaluate the embedding on
concrete inputs. -/
instance {e a : Type} [DecidableEq e] [DecidableEq a] : DecidableEq (Except e a) := fun x y =>
  match x, y with
  | Except.ok u, Except.ok v =>
      match decEq u v with
      | isTrue h => isTrue (by rw [h])
      | isFalse h => isFalse (fun hc => h (Except.ok.inj hc))
  | Except.error u, Except.error v =>
      match decEq u v with
      | isTrue h => isTrue (by rw [h])
      | isFalse h => isFalse (fun hc => h (Except.error.inj hc))
  | Except.ok _, Except.error _ => isFalse (fun hc => Except.noConfusion hc)
  | Except.error _, Except.ok _ => isFalse (fun hc => Except.noConfusion hc)

-- Concrete fixtures used by the closed counterexample and witness theorems:
-- a robot with group "arm" (joints j1, j2, unique tip "tip" rigidly carried by
-- link "link1") and group "two" (two tip frames), a scene whose frames world,
-- tip and link1 carry simple translations, and two stub planners.
def isoT : Iso := ⟨M3.one, ⟨0, 0, 2⟩⟩

def isoL : Iso := ⟨M3.one, ⟨0, 0, 1⟩⟩

def isoP : Iso := ⟨M3.one, ⟨1, 0, 0⟩⟩

def groupArm : JointGroup :=
  ⟨"arm", ["j1", "j2"], ["tip"], [("ready", [("j1", 0), ("j2", 0)]), ("home", [("j1", 1), ("j2", 1)])]⟩

def groupTwo : JointGroup := ⟨"two", ["j1"], ["tipA", "tipB"], [("home", [("j1", 1)])]⟩

def modelA : RobotModel := ⟨[groupArm, groupTwo], [("tip", "link1")]⟩

def sceneA : Scene := ⟨[("world", Iso.id), ("tip", isoT), ("link1", isoL)], "world", [("j1", 0), ("j2", 0)]⟩

def plannerNone : PlanRequest → Bool × Option Trajectory := fun _ => (false, none)

def plannerOk : PlanRequest → Bool × Option Trajectory := fun _ => (true, some [([("j1", 1)], 1)])

/-- scene inversion: every outcome's scene is the diff with some configuration -/
def ResolveOutcome.outScene : ResolveOutcome → Scene
  | .aborted s _ => s
  | .thrown s _ _ => s
  | .planned s _ _ => s

def ResolveOutcome.outSol : ResolveOutcome → SubTrajectory
  | .aborted _ s => s
  | .thrown _ s _ => s
  | .planned _ s _ => s

def sceneA1 : Scene := ⟨[("world", Iso.id), ("tip", isoT), ("link1", isoL)], "world", [("j1", 1), ("j2", 0)]⟩

def ikMsgW : PoseStamped := ⟨"tip", Iso.id⟩

def ikwW : Iso := ikPoseWorld sceneA ikMsgW

def target0W : Iso := (sceneA.frameTransform "world").comp isoP

def tgtW : Iso := (target0W.comp ikwW.inv).comp (sceneA.frameTransform "link1")

def solW : SubTrajectory :=
  addFrameMarker (addFrameMarker SubTrajectory.fresh sceneA target0W "target frame") sceneA ikwW "ik frame"

theorem lookup_setVar_ne (st : RobotState) (k j : JointName) (v : ℚ) (h : j ≠ k) :
    (setVar st k v).lookup j = st.lookup j := by
  have hjk : (j == k) = false := by simp [h]
  induction st with
  | nil => simp [setVar, List.lookup, hjk]
  | cons p rest ih =>
    simp only [setVar]
    by_cases hpk : (p.1 == k) = true
    · have hp1 : p.1 = k := by simpa using hpk
      have hjp : (j == p.1) = false := by simp [hp1, h]
      simp [hpk, List.lookup, hjk, hjp]
    · have hpk' : (p.1 == k) = false := by simpa using hpk
      cases hjp : (j == p.1) <;> simp [hpk', List.lookup, hjp, ih]

theorem lookup_foldl_setVar (l : List (JointName × ℚ)) (st : RobotState) (j : JointName)
    (h : ∀ kv ∈ l, kv.1 ≠ j) :
    (l.foldl (fun s kv => setVar s kv.1 kv.2) st).lookup j = st.lookup j := by
  induction l generalizing st with
  | nil => rfl
  | cons p rest ih =>
    have hp : p.1 ≠ j := h p (List.mem_cons_self p rest)
    have hr : ∀ kv ∈ rest, kv.1 ≠ j := fun kv hkv => h kv (List.mem_cons_of_mem p hkv)
    simp only [List.foldl_cons]
    rw [ih (setVar st p.1 p.2) hr, lookup_setVar_ne st p.1 j p.2 (Ne.symm hp)]

theorem checkJoints_eq_none_iff (jmg : JointGroup) (ns : List JointName) :
    checkJoints jmg ns = none ↔ ∀ n ∈ ns, n ∈ jmg.joints := by
  induction ns with
  | nil => simp [checkJoints]
  | cons n rest ih => by_cases h : n ∈ jmg.joints <;> simp [checkJoints, h, ih]

theorem applyJointMap_first_offender (jmg : JointGroup) (m : List (JointName × ℚ)) :
    ∀ st : RobotState, (∃ kv ∈ m, kv.1 ∉ jmg.joints) →
    ∃ k, k ∉ jmg.joints ∧
      (applyJointMap jmg m st).1 = Except.error (jointNotInGroupMsg k jmg.name) ∧
      (applyJointMap jmg m st).2 =
        (m.takeWhile (fun kv => jmg.joints.contains kv.1)).foldl (fun s kv => setVar s kv.1 kv.2) st := by
  induction m with
  | nil => intro st hbad; obtain ⟨kv, hmem, _⟩ := hbad; cases hmem
  | cons p rest ih =>
    intro st hbad
    obtain ⟨k1, v1⟩ := p
    by_cases hp : k1 ∈ jmg.joints
    · have hbad' : ∃ kv ∈ rest, kv.1 ∉ jmg.joints := by
        obtain ⟨kv, hmem, hkv⟩ := hbad
        rcases List.mem_cons.mp hmem with h1 | h2
        · subst h1; exact absurd hp hkv
        · exact ⟨kv, h2, hkv⟩
      obtain ⟨k, hk, herr, hst⟩ := ih (setVar st k1 v1) hbad'
      refine ⟨k, hk, ?_, ?_⟩
      · simpa [applyJointMap, hp] using herr
      · simpa [applyJointMap, hp, List.takeWhile_cons] using hst
    · exact ⟨k1, hp, by simp [applyJointMap, hp], by simp [applyJointMap, List.takeWhile_cons, hp]⟩

/-- C6: for every joint-value-map goal containing a key that is not a joint of
the selected group, resolution fails with an error naming the offending joint
and the group, and the working configuration receives no value for any joint
after the failing check: every joint not written by the entries preceding the
first offender keeps its original value. -/
theorem c6_joint_map_validation (jmg : JointGroup) (m : List (JointName × ℚ)) (st : RobotState)
    (hbad : ∃ kv ∈ m, kv.1 ∉ jmg.joints) :
    ∃ k, k ∉ jmg.joints ∧
      (getJointStateGoal (Goal.jointMapGoal m) jmg st).1 = Except.error (jointNotInGroupMsg k jmg.name) ∧
      (∀ j : JointName,
        (∀ kv ∈ m.takeWhile (fun kv => jmg.joints.contains kv.1), kv.1 ≠ j) →
        ((getJointStateGoal (Goal.jointMapGoal m) jmg st).2).lookup j = st.lookup j) := by
  obtain ⟨k, hk, herr, hst⟩ := applyJointMap_first_offender jmg m st hbad
  refine ⟨k, hk, herr, ?_⟩
  intro j hj
  show ((applyJointMap jmg m st).2).lookup j = st.lookup j
  rw [hst]
  exact lookup_foldl_setVar _ st j hj

/-- C4: a Cartesian point goal resolves (before final re-basing) to the target
whose rotation is exactly the pre-resolution ik-frame world rotation and whose
translation is the goal position transformed by the scene transform of the
goal's frame id; point goals never change the orientation. -/
theorem c4_point_goal_orientation (p : PointStamped) (ikw : Iso) (scene : Scene) :
    cartesianTarget (Goal.pointGoal p) ikw scene =
      some ⟨ikw.rot, (scene.frameTransform p.frame_id).applyPoint p.point⟩ := rfl

/-- C10: the `setGoal` convenience setter stores a RobotState message with the
diff flag set whose joint names and positions are exactly the map's entries in
order, so the goal is interpreted by the RobotStateDiff branch of
`getJointStateGoal`, and interpretation succeeds exactly when every named
joint belongs to the group. -/
theorem c10_setGoal_diff_state (joints : List (JointName × ℚ)) (jmg : JointGroup) (st : RobotState) :
    (∃ msg, setGoal joints = Goal.robotStateGoal msg ∧ msg.is_diff = true ∧
      msg.jointNames = joints.map Prod.fst ∧ msg.positions = joints.map Prod.snd ∧
      msg.multiDofJointNames = []) ∧
    ((getJointStateGoal (setGoal joints) jmg st).1 = Except.ok true ↔
      ∀ k ∈ joints.map Prod.fst, k ∈ jmg.joints) := by
  constructor
  · exact ⟨_, rfl, rfl, rfl, rfl, rfl⟩
  · simp only [setGoal, getJointStateGoal]
    by_cases h : checkJoints jmg (joints.map Prod.fst) = none
    · rw [h]
      simp only [checkJoints]
      exact ⟨fun _ => (checkJoints_eq_none_iff jmg (joints.map Prod.fst)).mp h, fun _ => rfl⟩
    · obtain ⟨j, hj⟩ := Option.ne_none_iff_exists'.mp h
      rw [hj]
      simp only []
      constructor
      · intro hcontra; cases hcontra
      · intro hall
        exact absurd ((checkJoints_eq_none_iff jmg (joints.map Prod.fst)).mpr hall) h

theorem resolve_planned_sol (model : RobotModel) (group : String) (goal : Goal)
    (ikf : Option PoseStamped) (timeout : ℚ) (pc : Constraints) (parentScene : Scene)
    (sc : Scene) (sol : SubTrajectory) (req : PlanRequest)
    (h : resolve model group goal ikf timeout pc parentScene = ResolveOutcome.planned sc sol req) :
    sol.comment = "" ∧ sol.failed = false ∧ sol.trajectory = none := by
  simp only [resolve] at h
  split at h
  · cases h
  · split at h
    · cases h
    · split at h
      · cases h
      · injection h with h1 h2 h3
        subst h2
        exact ⟨rfl, rfl, rfl⟩
      · split at h
        · cases h
        · split at h
          · cases h
          · injection h with h1 h2 h3
            subst h2
            exact ⟨rfl, rfl, rfl⟩

theorem resolve_outScene (model : RobotModel) (group : String) (goal : Goal)
    (ikf : Option PoseStamped) (timeout : ℚ) (pc : Constraints) (parentScene : Scene) :
    ∃ c, (resolve model group goal ikf timeout pc parentScene).outScene =
      (parentScene.diff).setCurrentState c := by
  simp only [resolve]
  split
  · exact ⟨(parentScene.diff).cur, rfl⟩
  · split
    · exact ⟨(parentScene.diff).cur, rfl⟩
    · split
      · exact ⟨_, rfl⟩
      · exact ⟨_, rfl⟩
      · split
        · exact ⟨_, rfl⟩
        · split
          · exact ⟨_, rfl⟩
          · exact ⟨_, rfl⟩

theorem resolve_sol_traj_none (model : RobotModel) (group : String) (goal : Goal)
    (ikf : Option PoseStamped) (timeout : ℚ) (pc : Constraints) (parentScene : Scene) :
    ((resolve model group goal ikf timeout pc parentScene).outSol).trajectory = none := by
  simp only [resolve]
  split
  · rfl
  · split
    · rfl
    · split <;> first
      | rfl
      | (split <;> first | rfl | (split <;> rfl))

theorem getTip_eq_none (jmg : JointGroup) (h : jmg.tips.length ≠ 1) : getTip jmg = none := by
  unfold getTip
  cases h2 : jmg.tips with
  | nil => rfl
  | cons a t =>
    cases t with
    | nil => exact absurd (by rw [h2]; rfl) h
    | cons b t2 => rfl

theorem storeResult_parent (p : Scene) (sf dir : Bool) (sc : Scene) (sol : SubTrajectory)
    (req : PlanRequest) (succ : Bool) (traj : Option Trajectory) :
    (storeResult p sf dir sc sol req succ traj).parent = p := by
  cases traj with
  | some t => rfl
  | none => cases sf <;> rfl

theorem storeResult_scene (p : Scene) (sf dir : Bool) (sc : Scene) (sol : SubTrajectory)
    (req : PlanRequest) (succ : Bool) (traj : Option Trajectory) :
    ∃ d, (storeResult p sf dir sc sol req succ traj).scene = sc.setCurrentState d := by
  cases traj with
  | some t => exact ⟨lastState t, rfl⟩
  | none =>
    cases sf with
    | true => exact ⟨lastState [(p.cur, 0), (sc.cur, 1)], rfl⟩
    | false => exact ⟨sc.cur, rfl⟩

/-- C2: joint-space goal interpretation follows the fixed priority structure
of `getJointStateGoal`: a structurally matching goal that is semantically
invalid (unknown named pose, non-diff robot state) yields an error rather than
falling through to a later interpretation; a pose or point goal is a no-match
(`ok false`), not an error; at the `compute` level an interpretation error
aborts the whole stage as a thrown `InitStageException`, while a no-match
proceeds to Cartesian resolution: the stage never throws from interpretation
and any planner request it reaches is a Cartesian-shaped request. -/
theorem c2_goal_interpretation (jmg : JointGroup) (st : RobotState) :
    (∀ n, jmg.defaults.lookup n = none →
      getJointStateGoal (Goal.namedPose n) jmg st = (Except.error ("Unknown joint pose: " ++ n), st)) ∧
    (∀ msg, msg.is_diff = false →
      getJointStateGoal (Goal.robotStateGoal msg) jmg st = (Except.error "Expecting a diff state", st)) ∧
    (∀ p, getJointStateGoal (Goal.poseGoal p) jmg st = (Except.ok false, st)) ∧
    (∀ p, getJointStateGoal (Goal.pointGoal p) jmg st = (Except.ok false, st)) ∧
    (∀ (model : RobotModel) (group : String) (goal : Goal) (ikf : Option PoseStamped)
        (timeout : ℚ) (pc : Constraints) (parentScene : Scene) (e : String) (st2 : RobotState),
      model.findGroup group = some jmg → goal ≠ Goal.emptyGoal →
      getJointStateGoal goal jmg (Scene.diff parentScene).cur = (Except.error e, st2) →
      resolve model group goal ikf timeout pc parentScene =
        ResolveOutcome.thrown ((Scene.diff parentScene).setCurrentState st2) SubTrajectory.fresh e) ∧
    (∀ (model : RobotModel) (group : String) (goal : Goal) (ikf : Option PoseStamped)
        (timeout : ℚ) (pc : Constraints) (parentScene : Scene) (st2 : RobotState),
      model.findGroup group = some jmg → goal ≠ Goal.emptyGoal →
      getJointStateGoal goal jmg (Scene.diff parentScene).cur = (Except.ok false, st2) →
      (∀ sc sol m, resolve model group goal ikf timeout pc parentScene ≠ ResolveOutcome.thrown sc sol m) ∧
      (∀ sc sol req, resolve model group goal ikf timeout pc parentScene = ResolveOutcome.planned sc sol req →
        req.isCartesianShape = true)) := by
  refine ⟨?_, ?_, ?_, ?_, ?_, ?_⟩
  · intro n hn; simp [getJointStateGoal, hn]
  · intro msg hm; simp [getJointStateGoal, hm]
  · intro p; rfl
  · intro p; rfl
  · intro model group goal ikf timeout pc parentScene e st2 hg hne he
    simp only [resolve, hg]
    rw [if_neg hne]
    simp only [he]
  · intro model group goal ikf timeout pc parentScene st2 hg hne hok
    constructor
    · intro sc sol m hcontra
      simp only [resolve, hg] at hcontra
      rw [if_neg hne] at hcontra
      simp only [hok] at hcontra
      split at hcontra
      · cases hcontra
      · split at hcontra
        · cases hcontra
        · cases hcontra
    · intro sc sol req hpl
      simp only [resolve, hg] at hpl
      rw [if_neg hne] at hpl
      simp only [hok] at hpl
      split at hpl
      · cases hpl
      · split at hpl
        · cases hpl
        · injection hpl with h1 h2 h3
          subst h3
          rfl

/-- C3: whenever `compute`'s resolution reaches a Cartesian planner request,
the request's target equals the resolved Cartesian target composed on the
right with the inverse of the ik frame's world pose and then with the scene
transform of the rigidly-connected parent link of the resolved ik frame, and
the request's moving link is that parent link; the request's start scene is the
parent scene. -/
theorem c3_cartesian_rebasing (model : RobotModel) (group : String) (goal : Goal) (ikf : Option PoseStamped)
    (timeout : ℚ) (pc : Constraints) (parentScene : Scene)
    (sc startSc : Scene) (sol : SubTrajectory) (l : String) (tgt : Iso) (g : String)
    (to2 : ℚ) (pcx : Constraints)
    (hres : resolve model group goal ikf timeout pc parentScene =
      ResolveOutcome.planned sc sol (PlanRequest.cartesianReq startSc l tgt g to2 pcx)) :
    ∃ jmg msg t0,
      model.findGroup group = some jmg ∧
      resolveIkFrameMsg ikf jmg sc = Except.ok msg ∧
      cartesianTarget goal (ikPoseWorld sc msg) sc = some t0 ∧
      l = model.parentLinkOf msg.frame_id ∧
      tgt = (t0.comp (ikPoseWorld sc msg).inv).comp (sc.frameTransform (model.parentLinkOf msg.frame_id)) ∧
      startSc = parentScene := by
  simp only [resolve] at hres
  split at hres
  · cases hres
  · split at hres
    · cases hres
    · split at hres
      · cases hres
      · injection hres with h1 h2 h3
        cases h3
      · split at hres
        · cases hres
        · split at hres
          · cases hres
          · injection hres with h1 h2 h3
            injection h3 with a1 a2 a3 a4 a5 a6
            subst h1 a1 a2 a3
            exact ⟨_, _, _, by assumption, by assumption, by assumption, rfl, rfl, rfl⟩

/-- C5 (amended): for every invocation whose goal matches none of the
joint-space interpretations, with the ik_frame property unset and the group
exposing a number of tip frames different from one, the invocation fails with
the failure message "missing ik_frame" before any planner call: no request is
issued and no exception escapes. -/
theorem c5_ik_frame_amended (model : RobotModel) (group : String) (goal : Goal)
    (timeout : ℚ) (pc : Constraints) (sf dir : Bool)
    (planner : PlanRequest → Bool × Option Trajectory)
    (parentScene : Scene) (jmg : JointGroup) (st2 : RobotState)
    (hg : model.findGroup group = some jmg)
    (hne : goal ≠ Goal.emptyGoal)
    (hnm : getJointStateGoal goal jmg (Scene.diff parentScene).cur = (Except.ok false, st2))
    (htips : jmg.tips.length ≠ 1) :
    (compute model group goal none timeout pc sf dir planner parentScene).ret = false ∧
    (compute model group goal none timeout pc sf dir planner parentScene).solution.failed = true ∧
    (compute model group goal none timeout pc sf dir planner parentScene).solution.comment = "missing ik_frame" ∧
    (compute model group goal none timeout pc sf dir planner parentScene).requests = [] ∧
    (compute model group goal none timeout pc sf dir planner parentScene).exn = none := by
  have htip := getTip_eq_none jmg htips
  simp only [compute, resolve, hg]
  rw [if_neg hne]
  simp [hnm, resolveIkFrameMsg, htip, markAsFailureMsg, SubTrajectory.fresh]

/-- C1 (amended): for every invocation that reaches the planner, when the
planner returns no trajectory and store-failures is enabled, the stored
trajectory is exactly the two-waypoint diagnostic trajectory — start
configuration at relative time 0, working configuration at relative time 1 —
reversed when the direction is backward; it always has exactly two waypoints;
the record is marked as a failure; no failure message is attached (the message
is empty); and the working scene's configuration equals the fallback's last
pre-reversal waypoint. -/
theorem c1_failure_fallback_amended (model : RobotModel) (group : String) (goal : Goal) (ikf : Option PoseStamped)
    (timeout : ℚ) (pc : Constraints) (dir : Bool)
    (planner : PlanRequest → Bool × Option Trajectory)
    (parentScene sc : Scene) (sol : SubTrajectory) (req : PlanRequest)
    (hres : resolve model group goal ikf timeout pc parentScene = ResolveOutcome.planned sc sol req)
    (hplan : planner req = (false, none)) :
    (compute model group goal ikf timeout pc true dir planner parentScene).solution.trajectory =
      some (if dir then reverseTrajectory [(parentScene.cur, 0), (sc.cur, 1)]
            else [(parentScene.cur, 0), (sc.cur, 1)]) ∧
    (∀ t, (compute model group goal ikf timeout pc true dir planner parentScene).solution.trajectory
        = some t → t.length = 2) ∧
    (compute model group goal ikf timeout pc true dir planner parentScene).solution.failed = true ∧
    (compute model group goal ikf timeout pc true dir planner parentScene).solution.comment = "" ∧
    (compute model group goal ikf timeout pc true dir planner parentScene).scene.cur = sc.cur := by
  obtain ⟨hcom, hfail, htraj⟩ :=
    resolve_planned_sol model group goal ikf timeout pc parentScene sc sol req hres
  simp only [compute, hres, hplan, storeResult, setTrajectory, markAsFailureNoMsg, lastState,
    Scene.setCurrentState]
  refine ⟨rfl, ?_, rfl, hcom, rfl⟩
  intro t ht
  cases dir with
  | false =>
    simp only [if_neg (by simp : ¬(false = true))] at ht
    injection ht with h
    rw [← h]
    rfl
  | true =>
    simp only [if_pos rfl] at ht
    injection ht with h
    rw [← h]
    rfl

/-- C7: for identical inputs and planner outcome, the backward-direction
stored trajectory is the exact reverse of the forward-direction stored
trajectory (waypoints with their relative times, in reversed order), the
resulting scene diff is identical, and the working scene's current
configuration is set to the last waypoint of the pre-reversal trajectory. -/
theorem c7_backward_reversal (model : RobotModel) (group : String) (goal : Goal) (ikf : Option PoseStamped)
    (timeout : ℚ) (pc : Constraints) (sf : Bool)
    (planner : PlanRequest → Bool × Option Trajectory) (parentScene : Scene) :
    (compute model group goal ikf timeout pc sf true planner parentScene).solution.trajectory =
      ((compute model group goal ikf timeout pc sf false planner parentScene).solution.trajectory).map
        reverseTrajectory ∧
    (compute model group goal ikf timeout pc sf true planner parentScene).scene =
      (compute model group goal ikf timeout pc sf false planner parentScene).scene ∧
    (∀ t, (compute model group goal ikf timeout pc sf false planner parentScene).solution.trajectory
        = some t →
      (compute model group goal ikf timeout pc sf false planner parentScene).scene.cur = lastState t) := by
  have htr := resolve_sol_traj_none model group goal ikf timeout pc parentScene
  cases hr : resolve model group goal ikf timeout pc parentScene with
  | aborted scene sol =>
    rw [hr] at htr
    simp only [ResolveOutcome.outSol] at htr
    simp [compute, hr, htr]
  | thrown scene sol e =>
    rw [hr] at htr
    simp only [ResolveOutcome.outSol] at htr
    simp [compute, hr, htr]
  | planned scene sol req =>
    rw [hr] at htr
    simp only [ResolveOutcome.outSol] at htr
    simp only [compute, hr]
    cases hp2 : (planner req).2 with
    | none =>
      cases sf with
      | false => simp [storeResult, hp2, htr]
      | true =>
        cases hp1 : (planner req).1 <;>
          simp [storeResult, hp2, hp1, setTrajectory, markAsFailureNoMsg, reverseTrajectory,
            Scene.setCurrentState, lastState]
    | some t =>
      cases hp1 : (planner req).1 <;>
        simp [storeResult, hp2, hp1, setTrajectory, markAsFailureNoMsg, reverseTrajectory,
          Scene.setCurrentState, lastState]

/-- C9: on every path of `compute` — abort, thrown interpretation error,
planner success or failure, forward or backward — the parent scene passed in
is returned unchanged, and the output scene is the per-invocation scene diff
with at most its current configuration replaced. -/
theorem c9_parent_scene_immutable (model : RobotModel) (group : String) (goal : Goal) (ikf : Option PoseStamped)
    (timeout : ℚ) (pc : Constraints) (sf dir : Bool)
    (planner : PlanRequest → Bool × Option Trajectory) (parentScene : Scene) :
    (compute model group goal ikf timeout pc sf dir planner parentScene).parent = parentScene ∧
    ∃ c, (compute model group goal ikf timeout pc sf dir planner parentScene).scene =
      (Scene.diff parentScene).setCurrentState c := by
  obtain ⟨c0, hc0⟩ := resolve_outScene model group goal ikf timeout pc parentScene
  cases hr : resolve model group goal ikf timeout pc parentScene with
  | aborted scene sol =>
    rw [hr] at hc0
    simp only [ResolveOutcome.outScene] at hc0
    exact ⟨by simp [compute, hr], ⟨c0, by simp only [compute, hr]; exact hc0⟩⟩
  | thrown scene sol e =>
    rw [hr] at hc0
    simp only [ResolveOutcome.outScene] at hc0
    exact ⟨by simp [compute, hr], ⟨c0, by simp only [compute, hr]; exact hc0⟩⟩
  | planned scene sol req =>
    rw [hr] at hc0
    simp only [ResolveOutcome.outScene] at hc0
    subst hc0
    constructor
    · simp only [compute, hr]
      exact storeResult_parent parentScene sf dir _ sol req (planner req).1 (planner req).2
    · obtain ⟨d, hd⟩ := storeResult_scene parentScene sf dir
        ((Scene.diff parentScene).setCurrentState c0) sol req (planner req).1 (planner req).2
      refine ⟨d, ?_⟩
      simp only [compute, hr]
      rw [hd]
      rfl

/-- C8 (amended): an unknown group name is not validated at stage setup —
`init` only initialises the planner, independently of the group — and is
instead detected on every `compute` invocation, which fails with the message
"invalid joint model group: " followed by the group name on the solution
record, before any planner call and without an escaping exception. -/
theorem c8_group_check_amended (model : RobotModel) (group : String) (goal : Goal) (ikf : Option PoseStamped)
    (timeout : ℚ) (pc : Constraints) (sf dir : Bool)
    (planner : PlanRequest → Bool × Option Trajectory) (parentScene : Scene)
    (plannerInit : RobotModel → Except String Unit)
    (hg : model.findGroup group = none) :
    init model plannerInit = plannerInit model ∧
    (compute model group goal ikf timeout pc sf dir planner parentScene).ret = false ∧
    (compute model group goal ikf timeout pc sf dir planner parentScene).exn = none ∧
    (compute model group goal ikf timeout pc sf dir planner parentScene).solution.failed = true ∧
    (compute model group goal ikf timeout pc sf dir planner parentScene).solution.comment =
      "invalid joint model group: " ++ group ∧
    (compute model group goal ikf timeout pc sf dir planner parentScene).requests = [] := by
  refine ⟨rfl, ?_⟩
  simp [compute, resolve, hg, markAsFailureMsg, SubTrajectory.fresh]

/-- C1 counterexample: a concrete backward invocation in which the planner
returns no trajectory and store-failures is enabled.  The record is marked as a
failure but its failure message is empty — the zero-argument `markAsFailure()`
at line 291 attaches no message — and, the direction being backward, the stored
two-waypoint trajectory has the working configuration first (at relative
time 1) and the start configuration second (at relative time 0).  Both falsify
the claim as stated. -/
theorem c1_failure_fallback_cex :
    (compute modelA "arm" (Goal.jointMapGoal [("j1", 1)]) none 1 [] true true plannerNone sceneA).solution.failed = true ∧
    (compute modelA "arm" (Goal.jointMapGoal [("j1", 1)]) none 1 [] true true plannerNone sceneA).solution.comment = "" ∧
    (compute modelA "arm" (Goal.jointMapGoal [("j1", 1)]) none 1 [] true true plannerNone sceneA).solution.trajectory =
      some [([("j1", 1), ("j2", 0)], 1), ([("j1", 0), ("j2", 0)], 0)] := by
  decide

/-- C1 witness: the amended theorem applied to a concrete backward invocation
with a failing planner. -/
theorem c1_failure_fallback_amended_witness :
    (compute modelA "arm" (Goal.jointMapGoal [("j1", 1)]) none 1 [] true true plannerNone sceneA).solution.trajectory =
      some (reverseTrajectory [(sceneA.cur, 0), (sceneA1.cur, 1)]) ∧
    (∀ t, (compute modelA "arm" (Goal.jointMapGoal [("j1", 1)]) none 1 [] true true plannerNone sceneA).solution.trajectory
        = some t → t.length = 2) ∧
    (compute modelA "arm" (Goal.jointMapGoal [("j1", 1)]) none 1 [] true true plannerNone sceneA).solution.failed = true ∧
    (compute modelA "arm" (Goal.jointMapGoal [("j1", 1)]) none 1 [] true true plannerNone sceneA).solution.comment = "" ∧
    (compute modelA "arm" (Goal.jointMapGoal [("j1", 1)]) none 1 [] true true plannerNone sceneA).scene.cur = sceneA1.cur :=
  c1_failure_fallback_amended modelA "arm" (Goal.jointMapGoal [("j1", 1)]) none 1 [] true plannerNone sceneA sceneA1
    SubTrajectory.fresh (PlanRequest.jointGoalReq sceneA sceneA1 "arm" 1 [])
    (by decide) rfl

/-- C2 witness: the theorem applied at concrete inputs — an unknown named
pose errors, a non-diff robot state errors, a pose goal is a silent no-match,
and a pose-goal invocation reaches only Cartesian planner requests. -/
theorem c2_goal_interpretation_witness :
    getJointStateGoal (Goal.namedPose "nope") groupArm [("j1", 0), ("j2", 0)] =
      (Except.error ("Unknown joint pose: " ++ "nope"), [("j1", 0), ("j2", 0)]) ∧
    getJointStateGoal (Goal.robotStateGoal ⟨false, [], [], []⟩) groupArm [("j1", 0), ("j2", 0)] =
      (Except.error "Expecting a diff state", [("j1", 0), ("j2", 0)]) ∧
    getJointStateGoal (Goal.poseGoal ⟨"world", isoP⟩) groupArm [("j1", 0), ("j2", 0)] =
      (Except.ok false, [("j1", 0), ("j2", 0)]) ∧
    (∀ sc sol req, resolve modelA "arm" (Goal.poseGoal ⟨"world", isoP⟩) none 1 [] sceneA =
        ResolveOutcome.planned sc sol req → req.isCartesianShape = true) := by
  have h := c2_goal_interpretation groupArm [("j1", 0), ("j2", 0)]
  refine ⟨h.1 "nope" (by decide), h.2.1 ⟨false, [], [], []⟩ rfl, h.2.2.1 ⟨"world", isoP⟩, ?_⟩
  exact (h.2.2.2.2.2 modelA "arm" (Goal.poseGoal ⟨"world", isoP⟩) none 1 [] sceneA sceneA.cur
    (by decide) (by decide) (by decide)).2

/-- C3 witness: the theorem applied to a concrete pose-goal invocation whose
ik frame "tip" is rigidly carried by link "link1". -/
theorem c3_cartesian_rebasing_witness :
    ∃ jmg msg t0,
      modelA.findGroup "arm" = some jmg ∧
      resolveIkFrameMsg none jmg sceneA = Except.ok msg ∧
      cartesianTarget (Goal.poseGoal ⟨"world", isoP⟩) (ikPoseWorld sceneA msg) sceneA = some t0 ∧
      "link1" = modelA.parentLinkOf msg.frame_id ∧
      tgtW = (t0.comp (ikPoseWorld sceneA msg).inv).comp
        (sceneA.frameTransform (modelA.parentLinkOf msg.frame_id)) ∧
      sceneA = sceneA :=
  c3_cartesian_rebasing modelA "arm" (Goal.poseGoal ⟨"world", isoP⟩) none 1 [] sceneA sceneA sceneA solW
    "link1" tgtW "arm" 1 [] rfl

/-- C5 counterexample: with the ik_frame property unset and a group exposing
two tip frames, a Cartesian invocation fails with the message
"missing ik_frame" — not "ambiguous ik frame" as the claim states — before any
planner call; and a joint-space invocation on the same two-tip group does not
fail at all, because ik_frame is never consulted on the joint-space path. -/
theorem c5_ik_frame_cex :
    (compute modelA "two" (Goal.poseGoal ⟨"world", isoP⟩) none 1 [] true false plannerNone sceneA).solution.comment = "missing ik_frame" ∧
    ¬((compute modelA "two" (Goal.poseGoal ⟨"world", isoP⟩) none 1 [] true false plannerNone sceneA).solution.comment
        = "ambiguous ik frame") ∧
    (compute modelA "two" (Goal.poseGoal ⟨"world", isoP⟩) none 1 [] true false plannerNone sceneA).requests = [] ∧
    (compute modelA "two" (Goal.namedPose "home") none 1 [] true false plannerOk sceneA).solution.failed = false ∧
    (compute modelA "two" (Goal.namedPose "home") none 1 [] true false plannerOk sceneA).ret = true := by
  decide

/-- C5 witness: the amended theorem applied to a concrete pose-goal invocation
on a group with two tip frames. -/
theorem c5_ik_frame_amended_witness :
    (compute modelA "two" (Goal.poseGoal ⟨"world", isoP⟩) none 1 [] true false plannerNone sceneA).ret = false ∧
    (compute modelA "two" (Goal.poseGoal ⟨"world", isoP⟩) none 1 [] true false plannerNone sceneA).solution.failed = true ∧
    (compute modelA "two" (Goal.poseGoal ⟨"world", isoP⟩) none 1 [] true false plannerNone sceneA).solution.comment = "missing ik_frame" ∧
    (compute modelA "two" (Goal.poseGoal ⟨"world", isoP⟩) none 1 [] true false plannerNone sceneA).requests = [] ∧
    (compute modelA "two" (Goal.poseGoal ⟨"world", isoP⟩) none 1 [] true false plannerNone sceneA).exn = none :=
  c5_ik_frame_amended modelA "two" (Goal.poseGoal ⟨"world", isoP⟩) 1 [] true false plannerNone sceneA groupTwo
    sceneA.cur (by decide) (by decide) (by decide) (by decide)

/-- C6 witness: the theorem applied to a concrete map whose second entry
names a joint outside the group. -/
theorem c6_joint_map_validation_witness :
    ∃ k, k ∉ groupArm.joints ∧
      (getJointStateGoal (Goal.jointMapGoal [("j1", 5), ("zz", 2), ("j2", 7)]) groupArm
        [("j1", 0), ("j2", 0)]).1 = Except.error (jointNotInGroupMsg k groupArm.name) ∧
      (∀ j : JointName,
        (∀ kv ∈ ([("j1", (5:ℚ)), ("zz", 2), ("j2", 7)]).takeWhile (fun kv => groupArm.joints.contains kv.1), kv.1 ≠ j) →
        ((getJointStateGoal (Goal.jointMapGoal [("j1", 5), ("zz", 2), ("j2", 7)]) groupArm
          [("j1", 0), ("j2", 0)]).2).lookup j = ([("j1", (0:ℚ)), ("j2", 0)]).lookup j) :=
  c6_joint_map_validation groupArm [("j1", 5), ("zz", 2), ("j2", 7)] [("j1", 0), ("j2", 0)] (by decide)

/-- C7 witness: the theorem applied to a concrete invocation whose planner
returns a one-waypoint trajectory. -/
theorem c7_backward_reversal_witness :
    (compute modelA "arm" (Goal.jointMapGoal [("j1", 1)]) none 1 [] true true plannerOk sceneA).solution.trajectory =
      ((compute modelA "arm" (Goal.jointMapGoal [("j1", 1)]) none 1 [] true false plannerOk sceneA).solution.trajectory).map
        reverseTrajectory ∧
    (compute modelA "arm" (Goal.jointMapGoal [("j1", 1)]) none 1 [] true true plannerOk sceneA).scene =
      (compute modelA "arm" (Goal.jointMapGoal [("j1", 1)]) none 1 [] true false plannerOk sceneA).scene ∧
    (compute modelA "arm" (Goal.jointMapGoal [("j1", 1)]) none 1 [] true false plannerOk sceneA).scene.cur =
      lastState [([("j1", 1)], 1)] := by
  have h := c7_backward_reversal modelA "arm" (Goal.jointMapGoal [("j1", 1)]) none 1 [] true plannerOk sceneA
  exact ⟨h.1, h.2.1, h.2.2 [([("j1", 1)], 1)] (by decide)⟩

/-- C8 counterexample: with a robot model that has no group named "nosuch",
`init` succeeds — pipeline construction is not aborted — and the unknown group
is instead handled per invocation inside `compute`, which fails the invocation
with the message "invalid joint model group: nosuch" before any planner call.
This falsifies the claim that an unknown group name is a fatal setup error. -/
theorem c8_group_check_cex :
    init modelA (fun _ => Except.ok ()) = Except.ok () ∧
    (compute modelA "nosuch" (Goal.namedPose "ready") none 1 [] true false plannerNone sceneA).ret = false ∧
    (compute modelA "nosuch" (Goal.namedPose "ready") none 1 [] true false plannerNone sceneA).exn = none ∧
    (compute modelA "nosuch" (Goal.namedPose "ready") none 1 [] true false plannerNone sceneA).solution.failed = true ∧
    (compute modelA "nosuch" (Goal.namedPose "ready") none 1 [] true false plannerNone sceneA).solution.comment =
      "invalid joint model group: nosuch" ∧
    (compute modelA "nosuch" (Goal.namedPose "ready") none 1 [] true false plannerNone sceneA).requests = [] := by
  decide

/-- C8 witness: the amended theorem applied to a concrete model lacking the
requested group. -/
theorem c8_group_check_amended_witness :
    init modelA (fun _ => Except.ok ()) = Except.ok () ∧
    (compute modelA "nosuch" (Goal.namedPose "ready") none 1 [] true false plannerNone sceneA).ret = false ∧
    (compute modelA "nosuch" (Goal.namedPose "ready") none 1 [] true false plannerNone sceneA).exn = none ∧
    (compute modelA "nosuch" (Goal.namedPose "ready") none 1 [] true false plannerNone sceneA).solution.failed = true ∧
    (compute modelA "nosuch" (Goal.namedPose "ready") none 1 [] true false plannerNone sceneA).solution.comment =
      "invalid joint model group: " ++ "nosuch" ∧
    (compute modelA "nosuch" (Goal.namedPose "ready") none 1 [] true false plannerNone sceneA).requests = [] :=
  c8_group_check_amended modelA "nosuch" (Goal.namedPose "ready") none 1 [] true false plannerNone sceneA
    (fun _ => Except.ok ()) (by decide)

/-- C10 witness: the theorem applied to a concrete two-entry map and group. -/
theorem c10_setGoal_diff_state_witness :
    (∃ msg, setGoal [("j1", 1), ("j2", 2)] = Goal.robotStateGoal msg ∧ msg.is_diff = true ∧
      msg.jointNames = ([("j1", (1:ℚ)), ("j2", 2)]).map Prod.fst ∧
      msg.positions = ([("j1", (1:ℚ)), ("j2", 2)]).map Prod.snd ∧
      msg.multiDofJointNames = []) ∧
    ((getJointStateGoal (setGoal [("j1", 1), ("j2", 2)]) groupArm [("j1", 0), ("j2", 0)]).1 = Except.ok true ↔
      ∀ k ∈ ([("j1", (1:ℚ)), ("j2", 2)]).map Prod.fst, k ∈ groupArm.joints) :=
  c10_setGoal_diff_state [("j1", 1), ("j2", 2)] groupArm [("j1", 0), ("j2", 0)]

end MoveToStage
